import Mathlib

/-!
Shallow embedding of the pyPicoSDK acquisition layer (`picosdk/picosdk.py`).

The native driver (`self.dll`) is an external collaborator: every native entry
point returns an integer status code and writes results through output
parameters.  We model each native call by (a) recording its name in a call
trace on the session state and (b) taking the status it returns (and any
output value it writes) as explicit parameters of the embedded method.

Python exceptions are modelled as values: a method that can raise returns an
`Except PicoError _` (or a `HandlerOutcome`) paired with the session state it
leaves behind — mutation performed before a raise persists, exactly as in
Python, because the state is threaded explicitly.

Python dicts (`self.range`, the channel→buffer mappings) are modelled as
association lists with Python's dict semantics: assignment to an existing key
updates it in place, a new key is appended at the end, iteration follows that
order.
-/

/-- Modelled from the spec: `POWER_SOURCE.SUPPLY_NOT_CONNECTED` comes from the
repository module `picosdk/constants.py`, which is not present under `src/`.
The spec designates the "power supply not connected" code as the sole member
of the warning set; its concrete numeric value is opaque, we fix one. -/
def POWER_SOURCE_SUPPLY_NOT_CONNECTED : Nat := 281

/-- Modelled from the spec: the code→message table `ERROR_STRING` comes from
the repository module `picosdk/error_list.py`, which is not present under
`src/`.  Per the spec it is a fixed partial table from native status codes to
human messages ("look it up in a fixed code→message table (fails with an
internal consistency error if the code is unknown ...)").  We model it as a
partial function with a handful of representative entries; codes outside the
table yield `none` (a Python `KeyError` on subscript). -/
def ERROR_STRING (status : Nat) : Option String :=
  if status = 0 then some ("PICO_OK")
  else if status = 3 then some ("PICO_NOT_FOUND")
  else if status = 13 then some ("PICO_INVALID_PARAMETER")
  else if status = POWER_SOURCE_SUPPLY_NOT_CONNECTED then
    some ("PICO_POWER_SUPPLY_NOT_CONNECTED")
  else none

/-- Modelled from the spec: `RANGE_LIST` comes from `picosdk/constants.py`
(not present under `src/`): the "fixed ordered table mapping range enum to
millivolt span" (§3).  Entries are the standard PicoScope spans in mV; every
entry is positive. -/
def RANGE_LIST : List Nat :=
  [10, 20, 50, 100, 200, 500, 1000, 2000, 5000, 10000, 20000, 50000]

/-- Modelled from the spec: the `DATA_TYPE` enumeration comes from
`picosdk/constants.py` (not present under `src/`); the spec enumerates the
supported widths as 8/16/32/64-bit signed and 32-bit unsigned. -/
def DATA_TYPE_INT8_T : Nat := 0

/-- Modelled from the spec: see `DATA_TYPE_INT8_T`. -/
def DATA_TYPE_INT16_T : Nat := 1

/-- Modelled from the spec: see `DATA_TYPE_INT8_T`. -/
def DATA_TYPE_INT32_T : Nat := 2

/-- Modelled from the spec: see `DATA_TYPE_INT8_T`. -/
def DATA_TYPE_INT64_T : Nat := 3

/-- Modelled from the spec: see `DATA_TYPE_INT8_T`. -/
def DATA_TYPE_UINT32_T : Nat := 4

/-- Python exceptions that the embedded methods can raise. -/
inductive PicoError where
  /-- `PicoSDKException(msg)` raised by the library itself. -/
  | picoSDKException (msg : String)
  /-- Python `KeyError`: subscripting a dict with a missing key. -/
  | keyError
  /-- Python `TypeError`: arithmetic on `None` (e.g. `max_adc_value` unset). -/
  | typeError
deriving DecidableEq, Repr

/-- Outcome of `_error_handler` on one native status code. -/
inductive HandlerOutcome where
  /-- Status 0: the handler returns with no side effect. -/
  | success
  /-- A designated warning code: a warning is printed and the handler returns. -/
  | warning
  /-- Any other non-zero code: the session is closed and
  `PicoSDKException(message)` is raised. -/
  | fatalError (msg : String)
  /-- The status code is absent from `ERROR_STRING`: the subscript on line
  `error_code = ERROR_STRING[status]` raises `KeyError` before any branch. -/
  | keyErrorCrash
deriving DecidableEq, Repr

/-- Spec §7 taxonomy: `InvalidConfiguration` covers "a value this engine
cannot submit — unknown datatype, unconfigured channel referenced by a
trigger".  In the code the former raises `PicoSDKException("Invalid datatype
selected for buffer")` and the latter a `KeyError` on the range dict. -/
def PicoError.isInvalidConfiguration : PicoError → Bool
  | .keyError => true
  | .picoSDKException msg => msg = "Invalid datatype selected for buffer"
  | _ => false

/-- Python dict lookup `d[k]` (`none` = `KeyError`). -/
def dictLookup {α : Type} (d : List (Nat × α)) (k : Nat) : Option α :=
  match d with
  | [] => none
  | (k2, v) :: rest => if k2 = k then some v else dictLookup rest k

/-- Python dict assignment `d[k] = v`: update in place if the key exists,
otherwise append at the end (insertion order is preserved). -/
def dictInsert {α : Type} (d : List (Nat × α)) (k : Nat) (v : α) : List (Nat × α) :=
  match d with
  | [] => [(k, v)]
  | (k2, v2) :: rest =>
      if k2 = k then (k, v) :: rest else (k2, v2) :: dictInsert rest k v

/-- The mutable state of a `PicoScopeBase` session (`__init__`), plus a trace
of the native driver calls issued so far. -/
structure PicoState where
  /-- Whether the native handle currently claims the hardware. -/
  handleOpen : Bool
  /-- `self.range`: channel id → range enum value, in dict insertion order. -/
  range : List (Nat × Nat)
  /-- `self.resolution` (None before `open_unit`). -/
  resolution : Option Nat
  /-- `self.max_adc_value` (None before `open_unit`). -/
  max_adc_value : Option Int
  /-- `self.min_adc_value` (None before `open_unit`). -/
  min_adc_value : Option Int
  /-- Names of the native driver entry points invoked so far, in order. -/
  nativeCalls : List String
deriving DecidableEq, Repr

/-- A fresh session, as built by `PicoScopeBase.__init__`. -/
def initPicoState : PicoState :=
  { handleOpen := false
    range := []
    resolution := none
    max_adc_value := none
    min_adc_value := none
    nativeCalls := [] }

/-- Record one native driver call on the session state. -/
def pushCall (st : PicoState) (f : String) : PicoState :=
  { st with nativeCalls := st.nativeCalls ++ [f] }

/-- `PicoScopeBase.close_unit`: issues the native `CloseUnit` call, releasing
the hardware claim. -/
def close_unit (st : PicoState) : PicoState :=
  { pushCall st ("CloseUnit") with handleOpen := false }

/-- `PicoScopeBase._error_handler`: looks the status up in `ERROR_STRING`
(raising `KeyError` if absent), then: 0 → return normally; a code in the
warning list `[POWER_SOURCE.SUPPLY_NOT_CONNECTED]` → print a warning and
return; any other non-zero code → `self.close_unit()` then raise
`PicoSDKException(error_code)`. -/
def _error_handler (st : PicoState) (status : Nat) : HandlerOutcome × PicoState :=
  match ERROR_STRING status with
  | none => (.keyErrorCrash, st)
  | some error_code =>
      if status ≠ 0 then
        if status = POWER_SOURCE_SUPPLY_NOT_CONNECTED then
          (.warning, st)
        else
          (.fatalError error_code, close_unit st)
      else
        (.success, st)

/-- Reinterpret a handler outcome as a Python control-flow result: fatal and
crash outcomes propagate as raised exceptions. -/
def raiseOutcome : HandlerOutcome → Except PicoError HandlerOutcome
  | .fatalError msg => .error (.picoSDKException msg)
  | .keyErrorCrash => .error .keyError
  | o => .ok o

/-- Python `int(x)` on a float/exact value: truncation toward zero. -/
def ratTrunc (q : Rat) : Int := if q < 0 then ⌈q⌉ else ⌊q⌋

/-- `PicoScopeBase.mv_to_adc`:
`int((mv / RANGE_LIST[channel_range]) * self.max_adc_value)`.
Python float arithmetic is embedded as exact rational arithmetic; the
session's discovered `max_adc_value` is the explicit first argument. -/
def mv_to_adc (max_adc_value : Int) (mv : Rat) (channel_range : Nat) : Int :=
  ratTrunc ((mv / ((RANGE_LIST.getD channel_range 0 : Nat) : Rat)) * (max_adc_value : Rat))

/-- `PicoScopeBase.adc_to_mv`:
`(float(adc) / float(self.max_adc_value)) * float(RANGE_LIST[channel_range])`. -/
def adc_to_mv (max_adc_value : Int) (adc : Int) (channel_range : Nat) : Rat :=
  ((adc : Rat) / (max_adc_value : Rat)) * ((RANGE_LIST.getD channel_range 0 : Nat) : Rat)

/-- `PicoScopeBase._set_channel_on` up to (but not including) the native
`SetChannelOn` call: the first statement is `self.range[channel] = range`. -/
def _set_channel_on_pre (st : PicoState) (channel range : Nat) : PicoState :=
  { st with range := dictInsert st.range channel range }

/-- `PicoScopeBase._set_channel_on` (6000E generation): records the range,
issues the native `SetChannelOn` call and feeds its status to
`_error_handler`.  The `coupling`, `offset` and `bandwidth` arguments are
marshalled to the native call unchanged and never touch session state, so
they are not modelled. -/
def _set_channel_on (st : PicoState) (channel range status : Nat) :
    HandlerOutcome × PicoState :=
  _error_handler (pushCall (_set_channel_on_pre st channel range) ("ps6000aSetChannelOn")) status

/-- `PicoScopeBase._set_channel_off` (6000E generation): issues the native
`SetChannelOff` call and error-handles its status.  `self.range` is not
touched. -/
def _set_channel_off (st : PicoState) (channel status : Nat) :
    HandlerOutcome × PicoState :=
  _error_handler (pushCall st ("ps6000aSetChannelOff:" ++ toString channel)) status

/-- `PicoScopeBase._set_channel` (5000D generation): records the range
unconditionally (`self.range[channel] = range` is the first statement, for
`enabled=True` and `enabled=False` alike), then issues the native
`ps5000aSetChannel` call with the enable flag and error-handles its status.
`coupling` and `offset` are marshalled through only and are not modelled. -/
def _set_channel (st : PicoState) (channel range : Nat) (enabled : Bool) (status : Nat) :
    HandlerOutcome × PicoState :=
  _error_handler
    (pushCall { st with range := dictInsert st.range channel range }
      ("ps5000aSetChannel:" ++ toString enabled)) status

/-- `ps6000a.set_channel`: dispatches on the enable flag to
`_set_channel_on` / `_set_channel_off`. -/
def ps6000a_set_channel (st : PicoState) (channel range : Nat) (enabled : Bool)
    (status : Nat) : HandlerOutcome × PicoState :=
  if enabled then _set_channel_on st channel range status
  else _set_channel_off st channel status

/-- `ps5000a.set_channel`: delegates to `_set_channel`. -/
def ps5000a_set_channel (st : PicoState) (channel range : Nat) (enabled : Bool)
    (status : Nat) : HandlerOutcome × PicoState :=
  _set_channel st channel range enabled status

/-- `PicoScopeBase.set_simple_trigger`: evaluates `self.range[channel]`
(raising `KeyError` if the channel was never enabled) before anything else,
converts the threshold via `mv_to_adc` (whose body multiplies by
`self.max_adc_value`, a `TypeError` when still `None`), then issues the
native `SetSimpleTrigger` call and error-handles its status.  `enable`,
`direction`, `delay` and `auto_trigger_ms` are marshalled through only and
are not modelled. -/
def set_simple_trigger (st : PicoState) (channel : Nat) (threshold_mv : Rat)
    (status : Nat) : Except PicoError HandlerOutcome × PicoState :=
  match dictLookup st.range channel with
  | none => (.error .keyError, st)
  | some channel_range =>
      match st.max_adc_value with
      | none => (.error .typeError, st)
      | some m =>
          let _threshold_adc := mv_to_adc m threshold_mv channel_range
          let (o, st2) := _error_handler (pushCall st ("SetSimpleTrigger")) status
          (raiseOutcome o, st2)

/-- Element width (in bits) picked by the `if/elif` datatype dispatch at the
top of `_set_data_buffer_ps6000a`; `none` is the `else: raise` branch. -/
def _buffer_elem_width (datatype : Nat) : Option Nat :=
  if datatype = DATA_TYPE_INT8_T then some 8
  else if datatype = DATA_TYPE_INT16_T then some 16
  else if datatype = DATA_TYPE_INT32_T then some 32
  else if datatype = DATA_TYPE_INT64_T then some 64
  else if datatype = DATA_TYPE_UINT32_T then some 32
  else none

/-- `PicoScopeBase._set_data_buffer_ps6000a`: dispatches on the datatype
(raising `PicoSDKException("Invalid datatype selected for buffer")` before
any native call if it is outside the enumerated set), allocates a
zero-initialized ctypes array of `samples` elements, registers it with the
native `SetDataBuffer` call and error-handles the status; on success the
buffer is returned.  A ctypes array is modelled by its element values. -/
def _set_data_buffer_ps6000a (st : PicoState) (channel samples datatype status : Nat) :
    Except PicoError (List Int) × PicoState :=
  match _buffer_elem_width datatype with
  | none => (.error (.picoSDKException ("Invalid datatype selected for buffer")), st)
  | some _width =>
      let buffer : List Int := List.replicate samples 0
      let (o, st2) :=
        _error_handler (pushCall st ("ps6000aSetDataBuffer:" ++ toString channel)) status
      match raiseOutcome o with
      | .error e => (.error e, st2)
      | .ok _ => (.ok buffer, st2)

/-- `PicoScopeBase._set_data_buffer_ps5000a`: allocates a zero-initialized
16-bit ctypes array of `samples` elements, registers it with the native
`SetDataBuffer` call and error-handles the status. -/
def _set_data_buffer_ps5000a (st : PicoState) (channel samples status : Nat) :
    Except PicoError (List Int) × PicoState :=
  let buffer : List Int := List.replicate samples 0
  let (o, st2) :=
    _error_handler (pushCall st ("ps5000aSetDataBuffer:" ++ toString channel)) status
  match raiseOutcome o with
  | .error e => (.error e, st2)
  | .ok _ => (.ok buffer, st2)

/-- The loop body of `ps6000a.set_data_buffer_for_enabled_channels`:
`for channel in self.range: channels_buffer[channel] = ..._set_data_buffer_ps6000a(...)`.
An exception raised mid-loop aborts the loop, keeping the entries built so
far out of the (never returned) dict. -/
def sdbLoop6000a (st : PicoState) (entries : List (Nat × Nat))
    (samples datatype status : Nat) :
    Except PicoError (List (Nat × List Int)) × PicoState :=
  match entries with
  | [] => (.ok [], st)
  | (channel, _) :: rest =>
      match _set_data_buffer_ps6000a st channel samples datatype status with
      | (.error e, st2) => (.error e, st2)
      | (.ok buf, st2) =>
          match sdbLoop6000a st2 rest samples datatype status with
          | (.error e, st3) => (.error e, st3)
          | (.ok d, st3) => (.ok ((channel, buf) :: d), st3)

/-- `ps6000a.set_data_buffer_for_enabled_channels`: builds a fresh dict with
one buffer per channel currently present in `self.range`, iterating that
dict in insertion order. -/
def set_data_buffer_for_enabled_channels_ps6000a (st : PicoState)
    (samples datatype status : Nat) :
    Except PicoError (List (Nat × List Int)) × PicoState :=
  sdbLoop6000a st st.range samples datatype status

/-- The loop body of `ps5000a.set_data_buffer_for_enabled_channels`. -/
def sdbLoop5000a (st : PicoState) (entries : List (Nat × Nat)) (samples status : Nat) :
    Except PicoError (List (Nat × List Int)) × PicoState :=
  match entries with
  | [] => (.ok [], st)
  | (channel, _) :: rest =>
      match _set_data_buffer_ps5000a st channel samples status with
      | (.error e, st2) => (.error e, st2)
      | (.ok buf, st2) =>
          match sdbLoop5000a st2 rest samples status with
          | (.error e, st3) => (.error e, st3)
          | (.ok d, st3) => (.ok ((channel, buf) :: d), st3)

/-- `ps5000a.set_data_buffer_for_enabled_channels`: one 16-bit buffer per
channel currently present in `self.range`. -/
def set_data_buffer_for_enabled_channels_ps5000a (st : PicoState)
    (samples status : Nat) :
    Except PicoError (List (Nat × List Int)) × PicoState :=
  sdbLoop5000a st st.range samples status

/-- `run_block_capture`: `pre_samples = int((samples * pre_trig_percent) / 100)`.
Python performs float division then `int` truncation; for non-negative
integer operands this is truncating integer division, embedded as `Nat`
division. -/
def run_block_capture_pre_samples (samples pre_trig_percent : Nat) : Nat :=
  samples * pre_trig_percent / 100

/-- `run_block_capture`: `post_samples = int(samples - pre_samples)`. -/
def run_block_capture_post_samples (samples pre_trig_percent : Nat) : Nat :=
  samples - run_block_capture_pre_samples samples pre_trig_percent

/-- `PicoScopeBase.run_block_capture`: computes the pre/post-trigger split,
issues the native `RunBlock` call and error-handles its status; on success
the driver-estimated busy time (an output parameter, here `time_indisposed_ms`)
is returned. -/
def run_block_capture (st : PicoState) (timebase samples pre_trig_percent status : Nat)
    (time_indisposed_ms : Int) : Except PicoError Int × PicoState :=
  let _pre_samples := run_block_capture_pre_samples samples pre_trig_percent
  let _post_samples := run_block_capture_post_samples samples pre_trig_percent
  let (o, st2) := _error_handler (pushCall st ("RunBlock:" ++ toString timebase)) status
  match raiseOutcome o with
  | .error e => (.error e, st2)
  | .ok _ => (.ok time_indisposed_ms, st2)

/-- `PicoScopeBase._open_unit`: issues the native `OpenUnit` call (the driver
writes the handle through `byref(self.handle)`), error-handles its status,
and — when no exception was raised — records the resolution. -/
def _open_unit (st : PicoState) (resolution status : Nat) :
    HandlerOutcome × PicoState :=
  let st1 := { pushCall st ("OpenUnit") with handleOpen := true }
  let (o, st2) := _error_handler st1 status
  match o with
  | .fatalError msg => (.fatalError msg, st2)
  | .keyErrorCrash => (.keyErrorCrash, st2)
  | o2 => (o2, { st2 with resolution := some resolution })

/-- `PicoScopeBase._get_maximum_adc_value`: issues the native `MaximumValue`
call (the driver writes `max_value` through an output parameter),
error-handles the status, and returns the written value. -/
def _get_maximum_adc_value (st : PicoState) (status : Nat) (max_value : Int) :
    Except PicoError Int × PicoState :=
  let (o, st2) := _error_handler (pushCall st ("ps5000aMaximumValue")) status
  match raiseOutcome o with
  | .error e => (.error e, st2)
  | .ok _ => (.ok max_value, st2)

/-- `ps5000a.open_unit`: `_open_unit` then
`self.max_adc_value = self._get_maximum_adc_value()`.  `min_adc_value` is
never assigned on this path. -/
def ps5000a_open_unit (st : PicoState) (resolution openStatus maxStatus : Nat)
    (max_value : Int) : Except PicoError Unit × PicoState :=
  let (o, st1) := _open_unit st resolution openStatus
  match raiseOutcome o with
  | .error e => (.error e, st1)
  | .ok _ =>
      match _get_maximum_adc_value st1 maxStatus max_value with
      | (.error e, st2) => (.error e, st2)
      | (.ok m, st2) => (.ok (), { st2 with max_adc_value := some m })

/-- Value held in a channel→buffer dict entry.  Distinguishing ctypes arrays
from Python lists models the object replacement a conversion performs. -/
inductive BufVal where
  /-- A ctypes array of raw ADC codes, as returned by buffer registration. -/
  | cbuf (l : List Int)
  /-- A Python list of integer samples. -/
  | ilist (l : List Int)
  /-- A Python list of float millivolt values. -/
  | mvlist (l : List Rat)
deriving DecidableEq, Repr

/-- Whether a dict entry still holds the raw ctypes array. -/
def BufVal.isCbuf : BufVal → Bool
  | .cbuf _ => true
  | _ => false

/-- `adc_to_mv` applied to one (possibly already float) sample. -/
def adc_to_mvQ (max_adc_value : Int) (adc : Rat) (channel_range : Nat) : Rat :=
  (adc / (max_adc_value : Rat)) * ((RANGE_LIST.getD channel_range 0 : Nat) : Rat)

/-- One iteration of the comprehension in `buffer_adc_to_mv`:
`self.adc_to_mv(sample, self.range[channel])` — the range subscript raises
`KeyError` for an unknown channel, and multiplying by a still-`None`
`max_adc_value` raises `TypeError`. -/
def convSample (st : PicoState) (channel : Nat) (sample : Rat) : Except PicoError Rat :=
  match dictLookup st.range channel with
  | none => .error .keyError
  | some channel_range =>
      match st.max_adc_value with
      | none => .error .typeError
      | some m => .ok (adc_to_mvQ m sample channel_range)

/-- Left-to-right effectful map of a list comprehension: the first raised
exception aborts the whole comprehension. -/
def mapExceptList (f : Rat → Except PicoError Rat) : List Rat → Except PicoError (List Rat)
  | [] => .ok []
  | x :: xs =>
      match f x with
      | .error e => .error e
      | .ok y =>
          match mapExceptList f xs with
          | .error e => .error e
          | .ok ys => .ok (y :: ys)

/-- `PicoScopeBase.buffer_adc_to_mv`: converts one buffer (ctypes array or
Python list) to a Python list of millivolt floats via the comprehension
`[self.adc_to_mv(sample, self.range[channel]) for sample in buffer]`. -/
def buffer_adc_to_mv (st : PicoState) (buffer : BufVal) (channel : Nat) :
    Except PicoError BufVal :=
  match buffer with
  | .cbuf l => (mapExceptList (convSample st channel) (l.map (fun s => (s : Rat)))).map .mvlist
  | .ilist l => (mapExceptList (convSample st channel) (l.map (fun s => (s : Rat)))).map .mvlist
  | .mvlist l => (mapExceptList (convSample st channel) l).map .mvlist

/-- The conversion `buffer_adc_to_mv` performs on a buffer of channel range
`channel_range` when the session has a discovered `max_adc_value` — the
success case of `buffer_adc_to_mv`, as a total function. -/
def bufToMv (max_adc_value : Int) (channel_range : Nat) : BufVal → BufVal
  | .cbuf l => .mvlist (l.map (fun s => adc_to_mvQ max_adc_value (s : Rat) channel_range))
  | .ilist l => .mvlist (l.map (fun s => adc_to_mvQ max_adc_value (s : Rat) channel_range))
  | .mvlist l => .mvlist (l.map (fun s => adc_to_mvQ max_adc_value s channel_range))

/-- `PicoScopeBase.buffer_ctypes_to_list`:
`[sample for sample in ctypes_list]` — a ctypes array becomes a Python list
of the same samples; a list rebuilds as an equal list. -/
def buffer_ctypes_to_list : BufVal → BufVal
  | .cbuf l => .ilist l
  | .ilist l => .ilist l
  | .mvlist l => .mvlist l

/-- A tiny heap of channel→buffer dict objects, to model Python object
identity: a dict variable is a reference (`Nat`) into the heap, and in-place
mutation updates the heap cell while the reference value is unchanged. -/
structure Heap where
  /-- The dict object stored at each reference. -/
  store : Nat → List (Nat × BufVal)

/-- Overwrite the dict object at reference `r`. -/
def heapUpdate (h : Heap) (r : Nat) (d : List (Nat × BufVal)) : Heap :=
  ⟨fun r2 => if r2 = r then d else h.store r2⟩

/-- The loop of `buffer_adc_to_mv_multiple_channels`:
`for channel in channels_buffer: channels_buffer[channel] = self.buffer_adc_to_mv(...)`.
Entries are rewritten in iteration order; an exception raised at one entry
leaves the earlier entries converted and that entry and the later ones
untouched. -/
def bamLoop (st : PicoState) (entries : List (Nat × BufVal)) :
    Option PicoError × List (Nat × BufVal) :=
  match entries with
  | [] => (none, [])
  | (channel, b) :: rest =>
      match buffer_adc_to_mv st b channel with
      | .error e => (some e, (channel, b) :: rest)
      | .ok b2 =>
          match bamLoop st rest with
          | (e?, rest2) => (e?, (channel, b2) :: rest2)

/-- `PicoScopeBase.buffer_adc_to_mv_multiple_channels`: rewrites every entry
of the dict object at `ref` in place and returns the same object
(`return channels_buffer`). -/
def buffer_adc_to_mv_multiple_channels (st : PicoState) (h : Heap) (ref : Nat) :
    Except PicoError Nat × Heap :=
  match bamLoop st (h.store ref) with
  | (some e, d2) => (.error e, heapUpdate h ref d2)
  | (none, d2) => (.ok ref, heapUpdate h ref d2)

/-- `PicoScopeBase.buffer_ctype_to_list_for_multiple_channels`: rewrites every
entry of the dict object at `ref` in place via `buffer_ctypes_to_list` and
returns the same object. -/
def buffer_ctype_to_list_for_multiple_channels (h : Heap) (ref : Nat) : Nat × Heap :=
  let d2 := (h.store ref).map (fun p => (p.1, buffer_ctypes_to_list p.2))
  (ref, heapUpdate h ref d2)

/-- Concrete session used by the C10 witness: channel 0 enabled at range
index 9, ADC ceiling discovered. -/
def c10WitnessState : PicoState :=
  { initPicoState with range := [(0, 9)], max_adc_value := some 32512 }

/-- Concrete heap used by the C10 witness: one dict object (reference 0)
holding a raw two-sample ctypes buffer for channel 0. -/
def c10WitnessHeap : Heap :=
  ⟨fun r => if r = 0 then [(0, BufVal.cbuf [1, 2])] else []⟩

theorem dictLookup_dictInsert_self {α : Type} (d : List (Nat × α)) (k : Nat) (v : α) :
    dictLookup (dictInsert d k v) k = some v := by
  induction d with
  | nil => simp [dictInsert, dictLookup]
  | cons p rest ih =>
      obtain ⟨k2, v2⟩ := p
      by_cases h : k2 = k
      · simp [dictInsert, dictLookup, h]
      · simp [dictInsert, dictLookup, h, ih]

theorem RANGE_LIST_getD_pos (i : Nat) (h : i < RANGE_LIST.length) :
    0 < RANGE_LIST.getD i 0 := by
  have h12 : i < 12 := by simpa [RANGE_LIST] using h
  interval_cases i <;> decide

theorem ratTrunc_intCast (n : Int) : ratTrunc ((n : Int) : Rat) = n := by
  unfold ratTrunc
  split
  · exact Int.ceil_intCast n
  · exact Int.floor_intCast n

theorem error_handler_preserves_range (st : PicoState) (status : Nat) :
    ((_error_handler st status).2).range = st.range := by
  unfold _error_handler
  split
  · rfl
  · split
    · split
      · rfl
      · rfl
    · rfl

/-- C1: for every native status code (i.e. every code in the `ERROR_STRING`
table): code 0 yields success with no side effects; the designated warning
code (power supply not connected) yields a warning outcome and returns with
the session state untouched (in particular still open); every other non-zero
code closes the session (via `close_unit`) and raises
`PicoSDKException` carrying the code's message. -/
theorem c1_error_handler_classification (st : PicoState) (status : Nat) (msg : String)
    (hm : ERROR_STRING status = some msg) :
    (status = 0 → _error_handler st status = (.success, st)) ∧
    (status = POWER_SOURCE_SUPPLY_NOT_CONNECTED →
      _error_handler st status = (.warning, st) ∧
      ((_error_handler st status).2).handleOpen = st.handleOpen) ∧
    (status ≠ 0 → status ≠ POWER_SOURCE_SUPPLY_NOT_CONNECTED →
      _error_handler st status = (.fatalError msg, close_unit st) ∧
      ((_error_handler st status).2).handleOpen = false) := by
  refine ⟨?_, ?_, ?_⟩
  · intro h0
    subst h0
    unfold _error_handler
    rw [hm]
    simp
  · intro hw
    subst hw
    have hne : POWER_SOURCE_SUPPLY_NOT_CONNECTED ≠ 0 := by decide
    unfold _error_handler
    rw [hm]
    simp [hne]
  · intro h0 hw
    have : _error_handler st status = (.fatalError msg, close_unit st) := by
      unfold _error_handler
      rw [hm]
      simp [h0, hw]
    refine ⟨this, ?_⟩
    rw [this]
    rfl

theorem c1_error_handler_classification_witness :
    ERROR_STRING 13 = some ("PICO_INVALID_PARAMETER") ∧
    (((13 : Nat) = 0 → _error_handler initPicoState 13 = (.success, initPicoState)) ∧
     ((13 : Nat) = POWER_SOURCE_SUPPLY_NOT_CONNECTED →
       _error_handler initPicoState 13 = (.warning, initPicoState) ∧
       ((_error_handler initPicoState 13).2).handleOpen = initPicoState.handleOpen) ∧
     ((13 : Nat) ≠ 0 → (13 : Nat) ≠ POWER_SOURCE_SUPPLY_NOT_CONNECTED →
       _error_handler initPicoState 13 =
         (.fatalError "PICO_INVALID_PARAMETER", close_unit initPicoState) ∧
       ((_error_handler initPicoState 13).2).handleOpen = false)) :=
  ⟨rfl, c1_error_handler_classification initPicoState 13 "PICO_INVALID_PARAMETER" rfl⟩

/-- C2: calling `set_simple_trigger` on a channel that was never enabled (no
entry in `self.range`) raises `KeyError` — classified InvalidConfiguration by
the spec taxonomy — with the session state untouched; in particular no native
driver call is made (the call trace is unchanged). -/
theorem c2_trigger_unconfigured_channel (st : PicoState) (channel : Nat)
    (threshold_mv : Rat) (status : Nat)
    (h : dictLookup st.range channel = none) :
    set_simple_trigger st channel threshold_mv status = (.error .keyError, st) ∧
    PicoError.isInvalidConfiguration .keyError = true ∧
    (set_simple_trigger st channel threshold_mv status).2.nativeCalls = st.nativeCalls := by
  unfold set_simple_trigger
  rw [h]
  exact ⟨rfl, rfl, rfl⟩

theorem c2_trigger_unconfigured_channel_witness :
    dictLookup initPicoState.range 0 = none ∧
    (set_simple_trigger initPicoState 0 500 0 = (.error .keyError, initPicoState) ∧
     PicoError.isInvalidConfiguration .keyError = true ∧
     (set_simple_trigger initPicoState 0 500 0).2.nativeCalls = initPicoState.nativeCalls) :=
  ⟨rfl, c2_trigger_unconfigured_channel initPicoState 0 500 0 rfl⟩

/-- C4: `run_block_capture` splits the sample count by integer truncation of
`samples * pre_trig_percent / 100` for the pre-trigger share with the
remainder post-trigger: the parts always sum back to `samples`, percent 0
gives an empty pre-trigger segment and percent 100 an empty post-trigger
segment. -/
theorem c4_pre_post_split (samples pre_trig_percent : Nat)
    (h : pre_trig_percent ≤ 100) :
    run_block_capture_pre_samples samples pre_trig_percent =
      samples * pre_trig_percent / 100 ∧
    run_block_capture_pre_samples samples pre_trig_percent +
      run_block_capture_post_samples samples pre_trig_percent = samples ∧
    (pre_trig_percent = 0 → run_block_capture_pre_samples samples pre_trig_percent = 0) ∧
    (pre_trig_percent = 100 → run_block_capture_post_samples samples pre_trig_percent = 0) := by
  have hle : samples * pre_trig_percent / 100 ≤ samples := by
    have h1 : samples * pre_trig_percent ≤ samples * 100 :=
      Nat.mul_le_mul_left samples h
    calc samples * pre_trig_percent / 100 ≤ samples * 100 / 100 :=
          Nat.div_le_div_right h1
      _ = samples := by omega
  refine ⟨rfl, ?_, ?_, ?_⟩
  · show samples * pre_trig_percent / 100 +
      (samples - samples * pre_trig_percent / 100) = samples
    omega
  · intro h0
    subst h0
    show samples * 0 / 100 = 0
    simp
  · intro h100
    subst h100
    show samples - samples * 100 / 100 = 0
    omega

theorem c4_pre_post_split_witness :
    (50 : Nat) ≤ 100 ∧
    (run_block_capture_pre_samples 1000 50 = 1000 * 50 / 100 ∧
     run_block_capture_pre_samples 1000 50 + run_block_capture_post_samples 1000 50 = 1000 ∧
     ((50 : Nat) = 0 → run_block_capture_pre_samples 1000 50 = 0) ∧
     ((50 : Nat) = 100 → run_block_capture_post_samples 1000 50 = 0)) :=
  ⟨by decide, c4_pre_post_split 1000 50 (by decide)⟩

/-- C5: for every ADC code within the device limits and every valid channel
range, `mv_to_adc (adc_to_mv code)` recovers the code to within ±1 unit (in
the exact-arithmetic embedding it recovers it exactly, truncation included). -/
theorem c5_adc_mv_roundtrip (adc max_adc : Int) (channel_range : Nat)
    (hmax : 0 < max_adc) (hr : channel_range < RANGE_LIST.length)
    (hlo : -max_adc ≤ adc) (hhi : adc ≤ max_adc) :
    (mv_to_adc max_adc (adc_to_mv max_adc adc channel_range) channel_range - adc).natAbs ≤ 1 := by
  have hRpos := RANGE_LIST_getD_pos channel_range hr
  have hR : ((RANGE_LIST.getD channel_range 0 : Nat) : Rat) ≠ 0 :=
    Nat.cast_ne_zero.mpr hRpos.ne'
  have hM : (max_adc : Rat) ≠ 0 := Int.cast_ne_zero.mpr hmax.ne'
  have key : ((adc : Rat) / (max_adc : Rat) * ((RANGE_LIST.getD channel_range 0 : Nat) : Rat)) /
      ((RANGE_LIST.getD channel_range 0 : Nat) : Rat) * (max_adc : Rat) = ((adc : Int) : Rat) := by
    rw [mul_div_cancel_right₀ _ hR, div_mul_cancel₀ _ hM]
  unfold mv_to_adc adc_to_mv
  rw [key, ratTrunc_intCast]
  simp

theorem c5_adc_mv_roundtrip_witness :
    (0 : Int) < 32512 ∧ 9 < RANGE_LIST.length ∧
    -(32512 : Int) ≤ 100 ∧ (100 : Int) ≤ 32512 ∧
    (mv_to_adc 32512 (adc_to_mv 32512 100 9) 9 - 100).natAbs ≤ 1 :=
  ⟨by norm_num, by decide, by norm_num, by norm_num,
   c5_adc_mv_roundtrip 100 32512 9 (by norm_num) (by decide) (by norm_num) (by norm_num)⟩

/-- C6: the claim says an unknown status code yields a generic "unrecognized
status" outcome without crashing.  The code instead evaluates
`ERROR_STRING[status]` unguarded as its first statement, so a code absent
from the table raises `KeyError` — an unhandled internal error, before any
classification and without closing the session.  Evaluated here at the
failing input 999999. -/
theorem c6_unknown_status_crashes :
    _error_handler initPicoState 999999 = (.keyErrorCrash, initPicoState) ∧
    (_error_handler initPicoState 999999).1 ≠ .success ∧
    (_error_handler initPicoState 999999).1 ≠ .warning ∧
    ERROR_STRING 999999 = none := by
  exact ⟨rfl, by decide, by decide, rfl⟩

/-- C3: the claim says disabling a channel removes it from the mapping
returned by the next `set_data_buffer_for_enabled_channels`, on both
generations.  The code never removes entries from `self.range`:
`ps6000a.set_channel(..., enabled=False)` calls `_set_channel_off`, which
leaves the range dict untouched, and `ps5000a.set_channel(..., enabled=False)`
even inserts the entry (`self.range[channel] = range` runs unconditionally in
`_set_channel`).  So a disabled channel still receives a buffer.  Evaluated
at the failing inputs: enable-then-disable channel 0 on a 6000A session, and
disable-from-scratch channel 1 on a 5000A session. -/
theorem c3_disabled_channel_still_buffered :
    (ps6000a_set_channel
        (ps6000a_set_channel initPicoState 0 5 true 0).2 0 5 false 0).2.range = [(0, 5)] ∧
    (set_data_buffer_for_enabled_channels_ps6000a
        (ps6000a_set_channel (ps6000a_set_channel initPicoState 0 5 true 0).2 0 5 false 0).2
        4 DATA_TYPE_INT16_T 0).1 = .ok [(0, List.replicate 4 0)] ∧
    (ps5000a_set_channel initPicoState 1 5 false 0).2.range = [(1, 5)] ∧
    (set_data_buffer_for_enabled_channels_ps5000a
        (ps5000a_set_channel initPicoState 1 5 false 0).2 4 0).1 =
      .ok [(1, List.replicate 4 0)] := by
  exact ⟨rfl, rfl, rfl, rfl⟩

/-- C7: allocating a 6000A data buffer with the 16-bit signed datatype yields
exactly `samples` elements, all zero (in particular 1000 zeros for
`samples = 1000`); a datatype outside the enumerated 8/16/32/64-bit-signed /
32-bit-unsigned set raises
`PicoSDKException("Invalid datatype selected for buffer")` (an
InvalidConfiguration outcome) before any native call, leaving the state
untouched. -/
theorem c7_buffer_allocation (st : PicoState) (channel samples datatype status : Nat)
    (hdt : _buffer_elem_width datatype = none) :
    ((_set_data_buffer_ps6000a st channel samples DATA_TYPE_INT16_T 0).1 =
        .ok (List.replicate samples 0) ∧
      (List.replicate samples (0 : Int)).length = samples ∧
      (∀ x ∈ List.replicate samples (0 : Int), x = 0)) ∧
    ((_set_data_buffer_ps6000a st channel 1000 DATA_TYPE_INT16_T 0).1 =
        .ok (List.replicate 1000 0) ∧
      (List.replicate 1000 (0 : Int)).length = 1000) ∧
    (_set_data_buffer_ps6000a st channel samples datatype status =
        (.error (.picoSDKException ("Invalid datatype selected for buffer")), st) ∧
      PicoError.isInvalidConfiguration
        (.picoSDKException ("Invalid datatype selected for buffer")) = true) := by
  refine ⟨⟨rfl, by simp, ?_⟩, ⟨rfl, by rw [List.length_replicate]⟩, ?_, by decide⟩
  · intro x hx
    exact List.eq_of_mem_replicate hx
  · unfold _set_data_buffer_ps6000a
    rw [hdt]

theorem c7_buffer_allocation_witness :
    _buffer_elem_width 7 = none ∧
    (((_set_data_buffer_ps6000a initPicoState 0 3 DATA_TYPE_INT16_T 0).1 =
        .ok (List.replicate 3 0) ∧
      (List.replicate 3 (0 : Int)).length = 3 ∧
      (∀ x ∈ List.replicate 3 (0 : Int), x = 0)) ∧
    ((_set_data_buffer_ps6000a initPicoState 0 1000 DATA_TYPE_INT16_T 0).1 =
        .ok (List.replicate 1000 0) ∧
      (List.replicate 1000 (0 : Int)).length = 1000) ∧
    (_set_data_buffer_ps6000a initPicoState 0 3 7 0 =
        (.error (.picoSDKException ("Invalid datatype selected for buffer")), initPicoState) ∧
      PicoError.isInvalidConfiguration
        (.picoSDKException ("Invalid datatype selected for buffer")) = true)) :=
  ⟨rfl, c7_buffer_allocation initPicoState 0 3 7 0 rfl⟩

/-- C8 counterexample: after a successful `ps5000a.open_unit` from a fresh
session, `min_adc_value` is still `None` — not 0 as the claim states; only
`max_adc_value` is populated, with the driver-reported maximum. -/
theorem c8_min_adc_value_not_zero :
    (ps5000a_open_unit initPicoState 0 0 0 32512).2.min_adc_value ≠ some 0 ∧
    (ps5000a_open_unit initPicoState 0 0 0 32512).2.min_adc_value = none ∧
    (ps5000a_open_unit initPicoState 0 0 0 32512).2.max_adc_value = some 32512 := by
  exact ⟨by decide, rfl, rfl⟩

/-- C8 (amended): after a successful `ps5000a.open_unit`, `max_adc_value`
equals the driver-reported maximum from the single `MaximumValue` query,
while `min_adc_value` is left untouched (still `None` for a fresh session):
the zero minimum is implicit, never stored. -/
theorem c8_open_populates_max_only (st : PicoState) (resolution : Nat) (max_value : Int) :
    (ps5000a_open_unit st resolution 0 0 max_value).1 = .ok () ∧
    (ps5000a_open_unit st resolution 0 0 max_value).2.max_adc_value = some max_value ∧
    (ps5000a_open_unit st resolution 0 0 max_value).2.min_adc_value = st.min_adc_value ∧
    (ps5000a_open_unit initPicoState resolution 0 0 max_value).2.min_adc_value = none := by
  exact ⟨rfl, rfl, rfl, rfl⟩

/-- C9: on both generations an enable call writes the requested range into
`self.range` before the native call is issued (`_set_channel_on_pre` is the
state at the native call, range already updated and no new native call yet),
and the entry is still there in the final state for every possible native
status — fatal statuses included: the update is not rolled back. -/
theorem c9_range_update_precedes_and_survives (st : PicoState)
    (channel range status : Nat) (enabled : Bool) :
    dictLookup (_set_channel_on_pre st channel range).range channel = some range ∧
    (_set_channel_on_pre st channel range).nativeCalls = st.nativeCalls ∧
    dictLookup ((_set_channel_on st channel range status).2).range channel = some range ∧
    dictLookup ((_set_channel st channel range enabled status).2).range channel = some range := by
  refine ⟨dictLookup_dictInsert_self _ _ _, rfl, ?_, ?_⟩
  · have h2 : ((_set_channel_on st channel range status).2).range =
        dictInsert st.range channel range := by
      unfold _set_channel_on
      rw [error_handler_preserves_range]
      rfl
    rw [h2]
    exact dictLookup_dictInsert_self _ _ _
  · have h2 : ((_set_channel st channel range enabled status).2).range =
        dictInsert st.range channel range := by
      unfold _set_channel
      rw [error_handler_preserves_range]
      rfl
    rw [h2]
    exact dictLookup_dictInsert_self _ _ _

theorem mapExceptList_of_ok (f : Rat → Except PicoError Rat) (g : Rat → Rat)
    (hf : ∀ x, f x = .ok (g x)) (l : List Rat) :
    mapExceptList f l = .ok (l.map g) := by
  induction l with
  | nil => rfl
  | cons x xs ih => simp [mapExceptList, hf, ih]

theorem buffer_adc_to_mv_of_known (st : PicoState) (m : Int) (channel cr : Nat)
    (hmax : st.max_adc_value = some m)
    (hch : dictLookup st.range channel = some cr) (b : BufVal) :
    buffer_adc_to_mv st b channel = .ok (bufToMv m cr b) := by
  have hconv : ∀ x : Rat, convSample st channel x = .ok (adc_to_mvQ m x cr) := by
    intro x
    unfold convSample
    rw [hch, hmax]
  cases b <;>
    simp [buffer_adc_to_mv, bufToMv, mapExceptList_of_ok _ _ hconv, Except.map,
      List.map_map, Function.comp]

theorem bamLoop_converts (st : PicoState) (m : Int) (crOf : Nat → Nat)
    (hmax : st.max_adc_value = some m) :
    ∀ entries : List (Nat × BufVal),
      (∀ p ∈ entries, dictLookup st.range p.1 = some (crOf p.1)) →
      bamLoop st entries = (none, entries.map fun p => (p.1, bufToMv m (crOf p.1) p.2)) := by
  intro entries
  induction entries with
  | nil => intro _; rfl
  | cons p rest ih =>
      intro hall
      obtain ⟨channel, b⟩ := p
      have hch : dictLookup st.range channel = some (crOf (channel, b).1) :=
        hall (channel, b) (by simp)
      have hconv := buffer_adc_to_mv_of_known st m channel (crOf channel) hmax hch b
      have hrest := ih (fun q hq => hall q (List.mem_cons_of_mem _ hq))
      simp [bamLoop, hconv, hrest]

theorem bufToMv_isCbuf_false (m : Int) (cr : Nat) (b : BufVal) :
    (bufToMv m cr b).isCbuf = false := by
  cases b <;> rfl

theorem buffer_ctypes_to_list_isCbuf_false (b : BufVal) :
    (buffer_ctypes_to_list b).isCbuf = false := by
  cases b <;> rfl

/-- C10: both bulk conversions rewrite the channel→buffer dict object in
place — the heap cell holding the input dict is updated, every other heap
cell is untouched — replacing each channel's entry with the converted
sequence, and return the very same object (the input reference); afterwards
no entry still holds a raw ctypes buffer. -/
theorem c10_bulk_conversion_in_place (st : PicoState) (h : Heap) (ref : Nat)
    (m : Int) (crOf : Nat → Nat)
    (hmax : st.max_adc_value = some m)
    (hcr : ∀ p ∈ h.store ref, dictLookup st.range p.1 = some (crOf p.1)) :
    (buffer_adc_to_mv_multiple_channels st h ref).1 = .ok ref ∧
    ((buffer_adc_to_mv_multiple_channels st h ref).2).store ref =
      (h.store ref).map (fun p => (p.1, bufToMv m (crOf p.1) p.2)) ∧
    (∀ r, r ≠ ref →
      ((buffer_adc_to_mv_multiple_channels st h ref).2).store r = h.store r) ∧
    (∀ p ∈ ((buffer_adc_to_mv_multiple_channels st h ref).2).store ref,
      p.2.isCbuf = false) ∧
    (buffer_ctype_to_list_for_multiple_channels h ref).1 = ref ∧
    ((buffer_ctype_to_list_for_multiple_channels h ref).2).store ref =
      (h.store ref).map (fun p => (p.1, buffer_ctypes_to_list p.2)) ∧
    (∀ r, r ≠ ref →
      ((buffer_ctype_to_list_for_multiple_channels h ref).2).store r = h.store r) ∧
    (∀ p ∈ ((buffer_ctype_to_list_for_multiple_channels h ref).2).store ref,
      p.2.isCbuf = false) := by
  have hloop := bamLoop_converts st m crOf hmax (h.store ref) hcr
  have hmv : ((buffer_adc_to_mv_multiple_channels st h ref).2).store ref =
      (h.store ref).map (fun p => (p.1, bufToMv m (crOf p.1) p.2)) := by
    simp [buffer_adc_to_mv_multiple_channels, hloop, heapUpdate]
  have hct : ((buffer_ctype_to_list_for_multiple_channels h ref).2).store ref =
      (h.store ref).map (fun p => (p.1, buffer_ctypes_to_list p.2)) := by
    simp [buffer_ctype_to_list_for_multiple_channels, heapUpdate]
  refine ⟨?_, hmv, ?_, ?_, rfl, hct, ?_, ?_⟩
  · simp [buffer_adc_to_mv_multiple_channels, hloop]
  · intro r hr
    simp [buffer_adc_to_mv_multiple_channels, hloop, heapUpdate, hr]
  · intro p hp
    rw [hmv] at hp
    rcases List.mem_map.mp hp with ⟨q, hq, rfl⟩
    exact bufToMv_isCbuf_false m (crOf q.1) q.2
  · intro r hr
    simp [buffer_ctype_to_list_for_multiple_channels, heapUpdate, hr]
  · intro p hp
    rw [hct] at hp
    rcases List.mem_map.mp hp with ⟨q, hq, rfl⟩
    exact buffer_ctypes_to_list_isCbuf_false q.2

theorem c10_bulk_conversion_in_place_witness :
    c10WitnessState.max_adc_value = some 32512 ∧
    (∀ p ∈ c10WitnessHeap.store 0,
      dictLookup c10WitnessState.range p.1 = some 9) ∧
    ((buffer_adc_to_mv_multiple_channels c10WitnessState c10WitnessHeap 0).1 = .ok 0 ∧
     ((buffer_adc_to_mv_multiple_channels c10WitnessState c10WitnessHeap 0).2).store 0 =
       (c10WitnessHeap.store 0).map (fun p => (p.1, bufToMv 32512 9 p.2)) ∧
     (∀ r, r ≠ 0 →
       ((buffer_adc_to_mv_multiple_channels c10WitnessState c10WitnessHeap 0).2).store r =
         c10WitnessHeap.store r) ∧
     (∀ p ∈ ((buffer_adc_to_mv_multiple_channels c10WitnessState c10WitnessHeap 0).2).store 0,
       p.2.isCbuf = false) ∧
     (buffer_ctype_to_list_for_multiple_channels c10WitnessHeap 0).1 = 0 ∧
     ((buffer_ctype_to_list_for_multiple_channels c10WitnessHeap 0).2).store 0 =
       (c10WitnessHeap.store 0).map (fun p => (p.1, buffer_ctypes_to_list p.2)) ∧
     (∀ r, r ≠ 0 →
       ((buffer_ctype_to_list_for_multiple_channels c10WitnessHeap 0).2).store r =
         c10WitnessHeap.store r) ∧
     (∀ p ∈ ((buffer_ctype_to_list_for_multiple_channels c10WitnessHeap 0).2).store 0,
       p.2.isCbuf = false)) :=
  ⟨rfl, by decide,
   c10_bulk_conversion_in_place c10WitnessState c10WitnessHeap 0 32512 (fun _ => 9)
     rfl (by decide)⟩
